import Mathlib

/-!
Verification of the volume / VM-directory lifecycle manager of the `wb` VM
manager (src/volume.cpp, src/vm.cpp), via a shallow embedding.

Filesystem state is modelled explicitly: a set of directories, regular files
with contents, symbolic links, the live mount table (ordered, later entries
more recent), and a statvfs probe table.  Paths are lists of components
(`a/b/c` is `["a","b","c"]`).  External collaborators (blkid UUID probe, the
mount(2)/umount(2) primitives, stream-write success) are modelled by an
environment record, since their outcomes are inputs to the logic under
verification, not part of it.
-/

deriving instance DecidableEq for Except

namespace Wb

/-- A filesystem path, as its list of components. -/
abbrev Path := List String

/-- `p / s` : append one component (C++ `operator/` with a single filename). -/
def Path.childOf (p : Path) (s : String) : Path := p ++ [s]

/-- C++ `path::parent_path()`. -/
def Path.parentDir (p : Path) : Path := p.dropLast

/-- C++ `path::filename()` (empty string for the empty path). -/
def Path.filenameOf (p : Path) : String := p.getLast?.getD ""

/-- C++ `path::string()` (rendered with `/` separators; model-level). -/
def pathStr (p : Path) : String := String.intercalate "/" p

/-- `q` lies at or below `base` in the tree. -/
def underPath (base q : Path) : Bool := decide (q.take base.length = base)

/-- `name[0] == '@'` check from the C++ code (false for the empty string,
matching `std::string::operator[]` yielding the NUL character there). -/
def startsWithAtSign (s : String) : Bool := decide (s.data.head? = some '@')

/-- `name.replace(name.begin(), name.begin() + 1, "")` : drop the first char. -/
def dropFirstChar (s : String) : String := ⟨s.data.drop 1⟩

/-- `operator>>(istream, string)` : skip leading whitespace, read one token. -/
def firstToken (s : String) : String :=
  ⟨(s.data.dropWhile Char.isWhitespace).takeWhile (fun c => ¬ c.isWhitespace)⟩

/-- A symbolic link target, kept relative or absolute as stored on disk. -/
inductive SymTarget where
  | rel : Path → SymTarget
  | abs : Path → SymTarget
deriving DecidableEq, Repr

/-- The filesystem + mount-table state consulted and mutated by the code.
`mounts` entries are `(target, source device, fstype)`; the list is in mount
order, so the most recent mount on a target is the last matching entry
(`MNT_ITER_BACKWARD` in the C++ code).  `statvfsTbl` maps a path to
`(f_frsize, f_bsize, f_blocks, f_bfree)` when a statvfs probe succeeds. -/
structure FS where
  dirs : List Path
  files : List (Path × String)
  symlinks : List (Path × SymTarget)
  mounts : List (Path × String × String)
  statvfsTbl : List (Path × (Nat × Nat × Nat × Nat))
deriving DecidableEq, Repr

/-- `std::filesystem::is_directory` on a real (non-symlink) directory. -/
def FS.isDir (σ : FS) (p : Path) : Bool := decide (p ∈ σ.dirs)

/-- Content of the regular file at `p`, if one exists. -/
def FS.fileContent (σ : FS) (p : Path) : Option String :=
  (σ.files.find? (fun e => decide (e.1 = p))).map (·.2)

/-- `std::filesystem::is_symlink`. -/
def FS.isSymlink (σ : FS) (p : Path) : Bool :=
  (σ.symlinks.find? (fun e => decide (e.1 = p))).isSome

/-- `std::filesystem::read_symlink`. -/
def FS.readSymlinkOf (σ : FS) (p : Path) : Option SymTarget :=
  (σ.symlinks.find? (fun e => decide (e.1 = p))).map (·.2)

/-- `std::filesystem::exists` (without following a symlink at `p` itself). -/
def FS.pathExists (σ : FS) (p : Path) : Bool :=
  σ.isDir p || (σ.fileContent p).isSome || σ.isSymlink p

/-- `exists(p) && is_directory(p)` where `is_directory` follows a symlink:
used by `vm::_delete` on the canonical VM path ("a symlink to a directory
counts as present"). -/
def FS.isDirFollow (σ : FS) (p : Path) : Bool :=
  σ.isDir p ||
    (match σ.readSymlinkOf p with
     | some (.rel q) => σ.isDir (p.parentDir ++ q)
     | some (.abs q) => σ.isDir q
     | none => false)

/-- `volume::get_source_device_from_mountpoint` (src/volume.cpp:238): `none`
if the path does not exist or is not a directory; otherwise the most recent
mount-table entry whose target is exactly the path. -/
def get_source_device_from_mountpoint (σ : FS) (path : Path) :
    Option (String × String) :=
  if ¬ (σ.pathExists path && σ.isDir path) then none
  else (σ.mounts.reverse.find? (fun e => decide (e.1 = path))).map (·.2)

/-- `volume::get_volume_dir` (src/volume.cpp:251): the Volume Resolver. -/
def get_volume_dir (σ : FS) (vm_root : Path) (volume_name : String) :
    Option Path :=
  let volume_dir := vm_root.childOf ("@" ++ volume_name)
  if volume_name = "default" then
    if σ.isDir volume_dir then some volume_dir else none
  else
    if (get_source_device_from_mountpoint σ volume_dir).isSome then
      some volume_dir
    else none

/-- `struct Volume` (src/volume.cpp:73), with the C++ default field values. -/
structure Volume where
  name : String
  online : Bool := false
  path : Path := []
  device_or_uuid : String := ""
  fstype : Option String := none
  size : Option Nat := none
  free : Option Nat := none
deriving DecidableEq, Repr

/-- `get_volume(path)` (src/volume.cpp:83): `none` unless the path is a
directory whose name starts with `@` and which is either a mount point or
holds a readable `.uuid` marker. -/
def get_volume (σ : FS) (path : Path) : Option Volume :=
  if ¬ σ.isDir path then none
  else
    let name0 := path.filenameOf
    if ¬ startsWithAtSign name0 then none
    else
      let name := dropFirstChar name0
      let device := get_source_device_from_mountpoint σ path
      let uuid_file := path.childOf ".uuid"
      if device.isNone && ¬ σ.pathExists uuid_file then none
      else
        match device with
        | some (dev, fstype) =>
          let vol : Volume :=
            { name := name, online := true, path := path,
              device_or_uuid := dev, fstype := some fstype }
          match (σ.statvfsTbl.find? (fun e => decide (e.1 = path))).map (·.2) with
          | some (frsize, bsize, blocks, bfree) =>
            let blocksize := if frsize ≠ 0 then frsize else bsize
            some { vol with size := some (blocksize * blocks),
                            free := some (blocksize * bfree) }
          | none => some vol
        | none =>
          match σ.fileContent uuid_file with
          | none => none
          | some content =>
            some { name := name, online := false,
                   device_or_uuid := firstToken content }

/-- `get_volume(vm_root, name)` overload (src/volume.cpp:117). -/
def get_volume_named (σ : FS) (vm_root : Path) (name : String) : Option Volume :=
  get_volume σ (vm_root.childOf ("@" ++ name))

/-- The immediate subdirectories of `vm_root` (the entries the C++
`directory_iterator` loops consider, restricted to real directories). -/
def rootChildren (σ : FS) (vm_root : Path) : List Path :=
  σ.dirs.filter (fun p => decide (p ≠ [] ∧ p.parentDir = vm_root))

/-- `get_volume_list` (src/volume.cpp:128): the Volume Registry.  The C++
code keys the result by name in a `std::map`; distinct children have
distinct filenames, so a plain list of the accepted volumes is faithful. -/
def get_volume_list (σ : FS) (vm_root : Path) : List Volume :=
  (rootChildren σ vm_root).filterMap (get_volume σ)

/-! ## External collaborators

Block devices, the blkid UUID probe, the outcome of mounting by UUID, stream
write success and umount success are inputs from outside the program. -/

/-- Environment of external collaborators.  `partUUID` is the blkid probe
(device → filesystem UUID); `mountByUUID` holds, for each UUID whose
`mount("UUID=...", target)` call would succeed, the device and fstype the
mount would establish; the `Ok` flags give the outcomes of opening/writing/
closing an `std::ofstream` and of `umount(2)`. -/
structure Env where
  blockDevices : List Path
  partUUID : List (Path × String)
  mountByUUID : List (String × String × String)
  openOk : Bool := true
  writeOk : Bool := true
  closeOk : Bool := true
  umountOk : Bool := true
deriving DecidableEq, Repr

/-- `get_partition_uuid` (src/volume.cpp:29), as the blkid probe result. -/
def partUUIDOf (env : Env) (device : Path) : Option String :=
  (env.partUUID.find? (fun e => decide (e.1 = device))).map (·.2)

/-! ## Filesystem mutation primitives -/

/-- `std::filesystem::create_directories`: create the path and any missing
ancestors. -/
def FS.mkdirAll (σ : FS) (p : Path) : FS :=
  { σ with dirs := σ.dirs ++ p.inits.filter (fun q => decide (q ≠ [] ∧ q ∉ σ.dirs)) }

/-- Write (create or overwrite) the regular file at `p`. -/
def FS.writeFileAt (σ : FS) (p : Path) (content : String) : FS :=
  { σ with files := (p, content) :: σ.files.filter (fun e => decide (e.1 ≠ p)) }

/-- `std::filesystem::remove` on a regular file. -/
def FS.removeFileAt (σ : FS) (p : Path) : FS :=
  { σ with files := σ.files.filter (fun e => decide (e.1 ≠ p)) }

/-- `std::filesystem::remove` on a symlink. -/
def FS.removeSymlinkAt (σ : FS) (p : Path) : FS :=
  { σ with symlinks := σ.symlinks.filter (fun e => decide (e.1 ≠ p)) }

/-- `std::filesystem::remove_all`: delete the whole tree at `p` (the mount
table is not touched; the code only calls this on unmounted paths). -/
def FS.removeAll (σ : FS) (p : Path) : FS :=
  { σ with dirs := σ.dirs.filter (fun q => !underPath p q),
           files := σ.files.filter (fun e => !underPath p e.1),
           symlinks := σ.symlinks.filter (fun e => !underPath p e.1) }

/-- A successful `mount(source, target)`: append a mount-table entry (the
appended entry is the most recent one for its target). -/
def FS.addMount (σ : FS) (target : Path) (src fstype : String) : FS :=
  { σ with mounts := σ.mounts ++ [(target, src, fstype)] }

/-- A successful `umount(2)`: drop the most recent entry for the target. -/
def FS.unmountAt (σ : FS) (p : Path) : FS :=
  { σ with mounts := (σ.mounts.reverse.eraseP (fun e => decide (e.1 = p))).reverse }

/-- Path relocation used by `std::filesystem::rename` on a directory tree. -/
def movePath (src dst q : Path) : Path :=
  if underPath src q then dst ++ q.drop src.length else q

/-- `std::filesystem::rename`: move the tree at `src` to `dst`. -/
def FS.renameTree (σ : FS) (src dst : Path) : FS :=
  { σ with dirs := σ.dirs.map (movePath src dst),
           files := σ.files.map (fun e => (movePath src dst e.1, e.2)),
           symlinks := σ.symlinks.map (fun e => (movePath src dst e.1, e.2)) }

/-! ## Volume Lifecycle Manager -/

/-- `volume::add` (src/volume.cpp:259).  Returns the filesystem state after
the call together with `ok` or the thrown error message; a thrown exception
leaves the state reached so far in place. -/
def volume_add (σ : FS) (env : Env) (vm_root : Path) (name : String)
    (device : Path) : FS × Except String Unit :=
  if name = "default" then (σ, .error "Default volume cannot be modified")
  else if ¬ device ∈ env.blockDevices then
    (σ, .error (pathStr device ++ " does not exist(or is not a block device)"))
  else
    let uuid := (partUUIDOf env device).getD ""
    if uuid = "" then
      (σ, .error (pathStr device ++ " has no UUID(not formatted?)"))
    else
      let volume_path := vm_root.childOf ("@" ++ name)
      if (get_source_device_from_mountpoint σ volume_path).isSome then
        (σ, .error (name ++ " has already been mounted"))
      else
        let uuid_file := volume_path.childOf ".uuid"
        if σ.pathExists uuid_file then
          (σ, .error (name ++ " has already been associated to a partition"))
        else
          let σ₁ := σ.mkdirAll volume_path
          let subvolume_file := volume_path.childOf ".subvolume"
          let σ₂ := if σ₁.pathExists subvolume_file then
                      σ₁.removeFileAt subvolume_file
                    else σ₁
          if ¬ env.openOk then
            (σ₂, .error ("Failed to open " ++ pathStr uuid_file))
          else if ¬ env.writeOk then
            (σ₂.writeFileAt uuid_file "",
             .error ("Failed writing to " ++ pathStr uuid_file))
          else
            let σ₃ := σ₂.writeFileAt uuid_file uuid
            if ¬ env.closeOk then
              (σ₃, .error ("Failed to close " ++ pathStr uuid_file))
            else
              match env.mountByUUID.find? (fun e => decide (e.1 = uuid)) with
              | some (_, dev, fstype) => (σ₃.addMount volume_path dev fstype, .ok ())
              | none =>
                (σ₃.removeAll volume_path,
                 .error ("Failed to mount UUID=" ++ uuid ++ " on " ++
                         pathStr volume_path))

/-- `volume::remove` (src/volume.cpp:305). -/
def volume_remove (σ : FS) (env : Env) (vm_root : Path) (name : String) :
    FS × Except String Unit :=
  if name = "default" then (σ, .error "Default volume cannot be modified")
  else
    let volume_path := vm_root.childOf ("@" ++ name)
    if ¬ σ.pathExists volume_path then
      (σ, .error ("Volume " ++ name ++ " does not exist"))
    else if (get_source_device_from_mountpoint σ volume_path).isSome then
      if env.umountOk then
        ((σ.unmountAt volume_path).removeAll volume_path, .ok ())
      else
        (σ, .error ("Unable to unmount " ++ pathStr volume_path))
    else
      (σ.removeAll volume_path, .ok ())

/-- One iteration of the `volume::scan` loop (src/volume.cpp:327-352),
acting on the accumulated state and per-volume report list. -/
def scanStep (env : Env) (acc : FS × List (String × Bool)) (path : Path) :
    FS × List (String × Bool) :=
  let σ := acc.1
  let name0 := path.filenameOf
  if ¬ startsWithAtSign name0 then acc
  else
    let name := dropFirstChar name0
    if name = "default" then acc
    else if (get_source_device_from_mountpoint σ path).isSome then acc
    else
      match σ.fileContent (path.childOf ".uuid") with
      | none => acc
      | some content =>
        let uuid := firstToken content
        match env.mountByUUID.find? (fun e => decide (e.1 = uuid)) with
        | some (_, dev, fstype) =>
          (σ.addMount path dev fstype, acc.2 ++ [(name, true)])
        | none => (σ, acc.2 ++ [(name, false)])

/-- Result of `volume::scan`: final state, one report per attempted volume
(`true` = mounted, `false` = couldn't be mounted) and the exit status. -/
structure ScanResult where
  state : FS
  reports : List (String × Bool)
  exit : Int
deriving DecidableEq, Repr

/-- `volume::scan` (src/volume.cpp:325). -/
def volume_scan (σ : FS) (env : Env) (vm_root : Path) : ScanResult :=
  let r := (rootChildren σ vm_root).foldl (scanStep env) (σ, [])
  { state := r.1, reports := r.2, exit := 0 }

/-! ## VM Placement Resolver and `vm delete` -/

/-- Resolution of a symlink target against the link's parent directory
(`vm_dir.parent_path() / read_symlink(vm_dir)` for a relative target). -/
def resolveTarget (linkPath : Path) (t : SymTarget) : Path :=
  match t with
  | .rel q => linkPath.parentDir ++ q
  | .abs q => q

/-- The placement-resolution part of `vm::_delete` (src/vm.cpp:506-526):
checks the VM directory is present, and for a symlinked VM validates that the
link points directly inside a directory that the Volume Resolver confirms as
that volume's directory.  Returns the real VM directory and, for an
indirected VM, its containing volume directory. -/
def vmDeleteResolve (σ : FS) (vm_root : Path) (vmname : String) :
    Except String (Path × Option Path) :=
  let vm_dir := vm_root.childOf vmname
  if ¬ σ.isDirFollow vm_dir then .error (vmname ++ " does not exist")
  else
    match σ.readSymlinkOf vm_dir with
    | none => .ok (vm_dir, none)
    | some tgt =>
      let real_vm_dir := resolveTarget vm_dir tgt
      let volume_dir := real_vm_dir.parentDir
      let vname0 := volume_dir.filenameOf
      if ¬ startsWithAtSign vname0 then
        .error (pathStr volume_dir ++ " is not a volume path")
      else
        let volume_name := dropFirstChar vname0
        match get_volume_dir σ vm_root volume_name with
        | none => .error ("Volume " ++ volume_name ++ " does not exist")
        | some should_be =>
          if should_be ≠ volume_dir then
            .error ("Symlink " ++ pathStr vm_dir ++ "(points " ++
                    pathStr real_vm_dir ++
                    ") does not point VM dir right under volume")
          else .ok (real_vm_dir, some volume_dir)

/-- Lowercase hex rendering of one nibble (`uuid_unparse_lower`). -/
def hexDigit (n : Nat) : Char :=
  if n < 10 then Char.ofNat (48 + n) else Char.ofNat (87 + n)

/-- `%02x` rendering of one byte. -/
def hexPair (b : Nat) : List Char := [hexDigit (b / 16), hexDigit (b % 16)]

/-- Hex rendering of a byte list. -/
def bytesHex (l : List Nat) : List Char := (l.map hexPair).flatten

/-- `uuid_unparse_lower` (util-linux): 16 bytes rendered as the textual
lowercase UUID `xxxxxxxx-xxxx-xxxx-xxxx-xxxxxxxxxxxx`. -/
def uuidUnparseLower (bs : List Nat) : String :=
  ⟨bytesHex (bs.take 4) ++ '-' :: bytesHex ((bs.drop 4).take 2) ++
   '-' :: bytesHex ((bs.drop 6).take 2) ++ '-' :: bytesHex ((bs.drop 8).take 2) ++
   '-' :: bytesHex (bs.drop 10)⟩

/-- `vm::_delete` (src/vm.cpp:504).  `running` is the `systemctl is-active`
answer and `uuidBytes` the 16 random bytes produced by `uuid_generate`, both
external inputs; `set_autostart` only touches service-manager state, which is
outside the filesystem model.  Returns the new state and, on success, the
trash path the real VM directory was renamed to. -/
def vm_delete (σ : FS) (vm_root : Path) (vmname : String) (running : Bool)
    (uuidBytes : List Nat) : FS × Except String Path :=
  match vmDeleteResolve σ vm_root vmname with
  | .error e => (σ, .error e)
  | .ok (real_vm_dir, volume_dir) =>
    if running then (σ, .error (vmname ++ " is running"))
    else
      let vm_dir := vm_root.childOf vmname
      let σ₁ := if σ.isSymlink vm_dir then σ.removeSymlinkAt vm_dir else σ
      let trash_dir := (volume_dir.getD vm_root).childOf ".trash"
      let σ₂ := σ₁.mkdirAll trash_dir
      let tgt := trash_dir.childOf (vmname ++ "." ++ uuidUnparseLower uuidBytes)
      (σ₂.renameTree real_vm_dir tgt, .ok tgt)

/-! ## Basic lemmas about paths, strings and the state primitives -/

theorem Path.childOf_ne_nil (p : Path) (s : String) : p.childOf s ≠ [] := by
  simp [Path.childOf]

theorem Path.parentDir_childOf (p : Path) (s : String) :
    (p.childOf s).parentDir = p := by
  simp [Path.childOf, Path.parentDir]

theorem Path.filenameOf_childOf (p : Path) (s : String) :
    (p.childOf s).filenameOf = s := by
  simp [Path.childOf, Path.filenameOf]

theorem Path.childOf_ne_self (p : Path) (s : String) : p.childOf s ≠ p := by
  intro h
  have := congrArg List.length h
  simp [Path.childOf] at this

theorem string_data_append (s t : String) : (s ++ t).data = s.data ++ t.data := rfl

theorem startsWithAtSign_append (s : String) :
    startsWithAtSign ("@" ++ s) = true := by
  simp [startsWithAtSign, string_data_append]

theorem dropFirstChar_append (s : String) : dropFirstChar ("@" ++ s) = s := by
  simp only [dropFirstChar, string_data_append]
  rfl

theorem underPath_self (p : Path) : underPath p p = true := by
  simp [underPath]

theorem underPath_append (p q : Path) : underPath p (p ++ q) = true := by
  simp [underPath, List.take_left]

theorem underPath_childOf (p : Path) (s : String) :
    underPath p (p.childOf s) = true :=
  underPath_append p [s]

/-- After `remove_all p`, nothing at or below `p` exists. -/
theorem pathExists_removeAll {p q : Path} (σ : FS) (h : underPath p q = true) :
    (σ.removeAll p).pathExists q = false := by
  simp only [FS.pathExists, FS.removeAll, FS.isDir, FS.fileContent, FS.isSymlink,
    Bool.or_eq_false_iff]
  refine ⟨⟨?_, ?_⟩, ?_⟩
  · simp only [decide_eq_false_iff_not, List.mem_filter]
    rintro ⟨-, hq⟩
    rw [h] at hq
    simp at hq
  · cases hf : List.find? (fun e => decide (e.1 = q))
        (σ.files.filter (fun e => !underPath p e.1)) with
    | none => rfl
    | some e =>
      exfalso
      have hpred := List.find?_some hf
      have hmem := List.mem_of_find?_eq_some hf
      rw [List.mem_filter] at hmem
      have he : e.1 = q := by simpa using hpred
      rw [he, h] at hmem
      simp at hmem
  · cases hf : List.find? (fun e => decide (e.1 = q))
        (σ.symlinks.filter (fun e => !underPath p e.1)) with
    | none => rfl
    | some e =>
      exfalso
      have hpred := List.find?_some hf
      have hmem := List.mem_of_find?_eq_some hf
      rw [List.mem_filter] at hmem
      have he : e.1 = q := by simpa using hpred
      rw [he, h] at hmem
      simp at hmem

/-- `create_directories p` makes `p` a directory (for nonempty `p`). -/
theorem isDir_mkdirAll_self (σ : FS) {p : Path} (h : p ≠ []) :
    (σ.mkdirAll p).isDir p = true := by
  simp only [FS.mkdirAll, FS.isDir, decide_eq_true_eq, List.mem_append]
  by_cases hp : p ∈ σ.dirs
  · exact Or.inl hp
  · refine Or.inr ?_
    rw [List.mem_filter]
    refine ⟨?_, by simp [h, hp]⟩
    simp [List.mem_inits]

theorem dirs_writeFileAt (σ : FS) (p : Path) (c : String) :
    (σ.writeFileAt p c).dirs = σ.dirs := rfl

theorem dirs_removeFileAt (σ : FS) (p : Path) : (σ.removeFileAt p).dirs = σ.dirs := rfl

/-! ## Claims -/

/-- C1: for every root and every volume name other than `"default"` whose
directory `root/@{name}` is not a mount point but contains a readable
`.uuid` marker, the Volume Registry (`get_volume`/`get_volume_list`) lists
that volume with state Offline, while the Volume Resolver (`get_volume_dir`)
returns `none` for the same name. -/
theorem c1_registry_resolver_asymmetry
    (σ : FS) (root : Path) (name c : String)
    (hname : name ≠ "default")
    (hdir : root.childOf ("@" ++ name) ∈ σ.dirs)
    (hnm : get_source_device_from_mountpoint σ (root.childOf ("@" ++ name)) = none)
    (hm : σ.fileContent ((root.childOf ("@" ++ name)).childOf ".uuid") = some c) :
    (∃ v ∈ get_volume_list σ root, v.name = name ∧ v.online = false)
    ∧ get_volume_dir σ root name = none := by
  have hisdir : σ.isDir (root.childOf ("@" ++ name)) = true := by
    simp [FS.isDir, hdir]
  have hex : σ.pathExists ((root.childOf ("@" ++ name)).childOf ".uuid") = true := by
    simp [FS.pathExists, hm]
  have hvol : get_volume σ (root.childOf ("@" ++ name)) =
      some { name := name, online := false, device_or_uuid := firstToken c } := by
    simp [get_volume, hisdir, Path.filenameOf_childOf, startsWithAtSign_append,
      dropFirstChar_append, hnm, hex, hm]
  refine ⟨⟨{ name := name, online := false, device_or_uuid := firstToken c },
    ?_, rfl, rfl⟩, ?_⟩
  · rw [get_volume_list, List.mem_filterMap]
    refine ⟨root.childOf ("@" ++ name), ?_, hvol⟩
    rw [rootChildren, List.mem_filter]
    exact ⟨hdir, by simp [Path.parentDir_childOf, Path.childOf_ne_nil]⟩
  · simp [get_volume_dir, hname, hnm]

theorem c1_registry_resolver_asymmetry_witness :
    (∃ v ∈ get_volume_list
        ⟨[["r"], ["r", "@v"]], [(["r", "@v", ".uuid"], "1234-uuid")], [], [], []⟩
        ["r"], v.name = "v" ∧ v.online = false)
    ∧ get_volume_dir
        ⟨[["r"], ["r", "@v"]], [(["r", "@v", ".uuid"], "1234-uuid")], [], [], []⟩
        ["r"] "v" = none :=
  c1_registry_resolver_asymmetry
    ⟨[["r"], ["r", "@v"]], [(["r", "@v", ".uuid"], "1234-uuid")], [], [], []⟩
    ["r"] "v" "1234-uuid" (by decide) (by decide) (by decide) (by decide)

/-- C2 (counterexample): with a root that exists and is a directory but has
no `@default` subdirectory, `get_volume_dir root "default"` is `none`, not
`some root` as the claim states. -/
theorem c2_default_resolution_counterexample :
    FS.isDir ⟨[["r"]], [], [], [], []⟩ ["r"] = true
    ∧ get_volume_dir ⟨[["r"]], [], [], [], []⟩ ["r"] "default" ≠ some ["r"] := by
  decide

/-- C2 (amended): the resolver treats `"default"` by looking at the
`root/@default` subdirectory like any other volume name: it returns
`root/@default` whenever that directory exists (and `none` otherwise, even
when `root` itself exists — see the counterexample); it never returns `root`
itself, and the mount table is not consulted for it. -/
theorem c2_default_resolution_amended (σ : FS) (root : Path) :
    (σ.isDir (root.childOf "@default") = true →
      get_volume_dir σ root "default" = some (root.childOf "@default"))
    ∧ (σ.isDir (root.childOf "@default") = false →
      get_volume_dir σ root "default" = none)
    ∧ get_volume_dir σ root "default" ≠ some root := by
  refine ⟨?_, ?_, ?_⟩
  · intro h
    simp [get_volume_dir, h]
  · intro h
    simp [get_volume_dir, h]
  · intro h
    rcases Bool.eq_false_or_eq_true (σ.isDir (root.childOf "@default")) with hd | hd
    · have h1 : get_volume_dir σ root "default" =
          some (root.childOf "@default") := by
        simp [get_volume_dir, hd]
      rw [h1] at h
      exact absurd (Option.some.inj h) (Path.childOf_ne_self root "@default")
    · have h2 : get_volume_dir σ root "default" = none := by
        simp [get_volume_dir, hd]
      rw [h2] at h
      cases h

theorem c2_default_resolution_amended_witness :
    get_volume_dir ⟨[["r"], ["r", "@default"]], [], [], [], []⟩ ["r"] "default"
      = some (Path.childOf ["r"] "@default")
    ∧ get_volume_dir ⟨[["r"]], [], [], [], []⟩ ["r"] "default" = none
    ∧ get_volume_dir ⟨[["r"], ["r", "@default"]], [], [], [], []⟩ ["r"] "default"
      ≠ some ["r"] :=
  ⟨(c2_default_resolution_amended
      ⟨[["r"], ["r", "@default"]], [], [], [], []⟩ ["r"]).1 (by decide),
   (c2_default_resolution_amended ⟨[["r"]], [], [], [], []⟩ ["r"]).2.1 (by decide),
   (c2_default_resolution_amended
      ⟨[["r"], ["r", "@default"]], [], [], [], []⟩ ["r"]).2.2⟩

/-- A mounted path exists and is a directory. -/
theorem exists_isDir_of_mounted {σ : FS} {p : Path} {d : String × String}
    (h : get_source_device_from_mountpoint σ p = some d) :
    σ.pathExists p = true ∧ σ.isDir p = true := by
  by_cases hc : (σ.pathExists p && σ.isDir p) = true
  · simp only [Bool.and_eq_true] at hc
    exact hc
  · rw [get_source_device_from_mountpoint, if_pos hc] at h
    cases h

/-- C6: when `root/@{name}` is a mount point and the unmount fails,
`volume::remove` aborts with an error and changes nothing at all. -/
theorem c6_remove_aborts_on_unmount_failure
    (σ : FS) (env : Env) (root : Path) (name : String) (d : String × String)
    (hname : name ≠ "default")
    (hmounted : get_source_device_from_mountpoint σ (root.childOf ("@" ++ name)) = some d)
    (hum : env.umountOk = false) :
    volume_remove σ env root name =
      (σ, .error ("Unable to unmount " ++ pathStr (root.childOf ("@" ++ name)))) := by
  have hex := (exists_isDir_of_mounted hmounted).1
  simp [volume_remove, hname, hex, hmounted, hum]

theorem c6_remove_aborts_on_unmount_failure_witness :
    volume_remove ⟨[["r"], ["r", "@v"]], [], [],
        [(["r", "@v"], "/dev/sdb1", "ext4")], []⟩
      { blockDevices := [], partUUID := [], mountByUUID := [], umountOk := false }
      ["r"] "v" =
    (⟨[["r"], ["r", "@v"]], [], [], [(["r", "@v"], "/dev/sdb1", "ext4")], []⟩,
     .error ("Unable to unmount " ++ pathStr (Path.childOf ["r"] ("@" ++ "v")))) :=
  c6_remove_aborts_on_unmount_failure
    ⟨[["r"], ["r", "@v"]], [], [], [(["r", "@v"], "/dev/sdb1", "ext4")], []⟩
    { blockDevices := [], partUUID := [], mountByUUID := [], umountOk := false }
    ["r"] "v" ("/dev/sdb1", "ext4") (by decide) (by decide) rfl

/-- C10: apart from rejecting the reserved name, `volume::remove` only
checks that `root/@{name}` exists: for any existing, unmounted path — even
an orphaned `@`-directory with no `.uuid` marker — it succeeds and
recursively deletes the whole tree. -/
theorem c10_remove_deletes_any_existing_path
    (σ : FS) (env : Env) (root : Path) (name : String)
    (hname : name ≠ "default")
    (hex : σ.pathExists (root.childOf ("@" ++ name)) = true)
    (hnm : get_source_device_from_mountpoint σ (root.childOf ("@" ++ name)) = none) :
    (volume_remove σ env root name).2 = .ok ()
    ∧ ∀ q, underPath (root.childOf ("@" ++ name)) q = true →
        (volume_remove σ env root name).1.pathExists q = false := by
  have hres : volume_remove σ env root name =
      (σ.removeAll (root.childOf ("@" ++ name)), .ok ()) := by
    simp [volume_remove, hname, hex, hnm]
  rw [hres]
  exact ⟨rfl, fun q hq => pathExists_removeAll σ hq⟩

theorem c10_remove_deletes_any_existing_path_witness :
    (volume_remove ⟨[["r"], ["r", "@x"], ["r", "@x", "junk"]], [], [], [], []⟩
      { blockDevices := [], partUUID := [], mountByUUID := [] } ["r"] "x").2 = .ok ()
    ∧ (volume_remove ⟨[["r"], ["r", "@x"], ["r", "@x", "junk"]], [], [], [], []⟩
      { blockDevices := [], partUUID := [], mountByUUID := [] }
      ["r"] "x").1.pathExists (Path.childOf ["r"] ("@" ++ "x")) = false :=
  ⟨(c10_remove_deletes_any_existing_path
      ⟨[["r"], ["r", "@x"], ["r", "@x", "junk"]], [], [], [], []⟩
      { blockDevices := [], partUUID := [], mountByUUID := [] } ["r"] "x"
      (by decide) (by decide) (by decide)).1,
   (c10_remove_deletes_any_existing_path
      ⟨[["r"], ["r", "@x"], ["r", "@x", "junk"]], [], [], [], []⟩
      { blockDevices := [], partUUID := [], mountByUUID := [] } ["r"] "x"
      (by decide) (by decide) (by decide)).2
     (Path.childOf ["r"] ("@" ++ "x")) (by decide)⟩

/-- C4: when every precondition of `volume::add` passes and the final mount
step fails, the call raises the mount error and the just-created volume
directory `root/@{name}` — including the freshly written `.uuid` marker and
anything else below it — no longer exists afterwards. -/
theorem c4_add_rollback_on_mount_failure
    (σ : FS) (env : Env) (root : Path) (name : String) (device : Path) (uuid : String)
    (hname : name ≠ "default")
    (hdev : device ∈ env.blockDevices)
    (huuid : partUUIDOf env device = some uuid)
    (hne : uuid ≠ "")
    (hnm : get_source_device_from_mountpoint σ (root.childOf ("@" ++ name)) = none)
    (hnofile : σ.pathExists ((root.childOf ("@" ++ name)).childOf ".uuid") = false)
    (hopen : env.openOk = true) (hwrite : env.writeOk = true)
    (hclose : env.closeOk = true)
    (hmount : env.mountByUUID.find? (fun e => decide (e.1 = uuid)) = none) :
    (volume_add σ env root name device).2 =
      .error ("Failed to mount UUID=" ++ uuid ++ " on " ++
              pathStr (root.childOf ("@" ++ name)))
    ∧ ∀ q, underPath (root.childOf ("@" ++ name)) q = true →
        (volume_add σ env root name device).1.pathExists q = false := by
  by_cases hsub : (σ.mkdirAll (root.childOf ("@" ++ name))).pathExists
      ((root.childOf ("@" ++ name)).childOf ".subvolume") = true
  · constructor
    · simp [volume_add, hname, hdev, huuid, hne, hnm, hnofile, hopen, hwrite,
        hclose, hmount, hsub]
    · intro q hq
      have hst : (volume_add σ env root name device).1 =
          FS.removeAll (((σ.mkdirAll (root.childOf ("@" ++ name))).removeFileAt
              ((root.childOf ("@" ++ name)).childOf ".subvolume")).writeFileAt
              ((root.childOf ("@" ++ name)).childOf ".uuid") uuid)
            (root.childOf ("@" ++ name)) := by
        simp [volume_add, hname, hdev, huuid, hne, hnm, hnofile, hopen, hwrite,
          hclose, hmount, hsub]
      rw [hst]
      exact pathExists_removeAll _ hq
  · constructor
    · simp [volume_add, hname, hdev, huuid, hne, hnm, hnofile, hopen, hwrite,
        hclose, hmount, hsub]
    · intro q hq
      have hst : (volume_add σ env root name device).1 =
          FS.removeAll ((σ.mkdirAll (root.childOf ("@" ++ name))).writeFileAt
              ((root.childOf ("@" ++ name)).childOf ".uuid") uuid)
            (root.childOf ("@" ++ name)) := by
        simp [volume_add, hname, hdev, huuid, hne, hnm, hnofile, hopen, hwrite,
          hclose, hmount, hsub]
      rw [hst]
      exact pathExists_removeAll _ hq

theorem c4_add_rollback_on_mount_failure_witness :
    (volume_add ⟨[["r"]], [], [], [], []⟩
      { blockDevices := [["dev", "sdb1"]], partUUID := [(["dev", "sdb1"], "U1")],
        mountByUUID := [] } ["r"] "v" ["dev", "sdb1"]).2 =
      .error ("Failed to mount UUID=" ++ "U1" ++ " on " ++
              pathStr (Path.childOf ["r"] ("@" ++ "v")))
    ∧ (volume_add ⟨[["r"]], [], [], [], []⟩
      { blockDevices := [["dev", "sdb1"]], partUUID := [(["dev", "sdb1"], "U1")],
        mountByUUID := [] }
      ["r"] "v" ["dev", "sdb1"]).1.pathExists (Path.childOf ["r"] ("@" ++ "v")) = false :=
  ⟨(c4_add_rollback_on_mount_failure ⟨[["r"]], [], [], [], []⟩
      { blockDevices := [["dev", "sdb1"]], partUUID := [(["dev", "sdb1"], "U1")],
        mountByUUID := [] } ["r"] "v" ["dev", "sdb1"] "U1"
      (by decide) (by decide) (by decide) (by decide) (by decide) (by decide)
      rfl rfl rfl rfl).1,
   (c4_add_rollback_on_mount_failure ⟨[["r"]], [], [], [], []⟩
      { blockDevices := [["dev", "sdb1"]], partUUID := [(["dev", "sdb1"], "U1")],
        mountByUUID := [] } ["r"] "v" ["dev", "sdb1"] "U1"
      (by decide) (by decide) (by decide) (by decide) (by decide) (by decide)
      rfl rfl rfl rfl).2 (Path.childOf ["r"] ("@" ++ "v")) (by decide)⟩

/-- C7: a second `volume::add` with an already-used name fails before any
mutation, with two distinct errors: "already been mounted" when the volume
is online, "already been associated to a partition" when only the `.uuid`
marker exists. -/
theorem c7_add_idempotency_rejection
    (σ : FS) (env : Env) (root : Path) (name : String) (device : Path) (uuid : String)
    (hname : name ≠ "default")
    (hdev : device ∈ env.blockDevices)
    (huuid : partUUIDOf env device = some uuid)
    (hne : uuid ≠ "") :
    (∀ d, get_source_device_from_mountpoint σ (root.childOf ("@" ++ name)) = some d →
       volume_add σ env root name device =
         (σ, .error (name ++ " has already been mounted")))
    ∧ (get_source_device_from_mountpoint σ (root.childOf ("@" ++ name)) = none →
       σ.pathExists ((root.childOf ("@" ++ name)).childOf ".uuid") = true →
       volume_add σ env root name device =
         (σ, .error (name ++ " has already been associated to a partition")))
    ∧ (name ++ " has already been mounted") ≠
        (name ++ " has already been associated to a partition") := by
  refine ⟨?_, ?_, ?_⟩
  · intro d hm
    simp [volume_add, hname, hdev, huuid, hne, hm]
  · intro hnm hfile
    simp [volume_add, hname, hdev, huuid, hne, hnm, hfile]
  · intro h
    have hd0 : name.data ++ (" has already been mounted" : String).data =
        name.data ++ (" has already been associated to a partition" : String).data := by
      have hdata := congrArg String.data h
      rw [string_data_append, string_data_append] at hdata
      exact hdata
    exact absurd (List.append_cancel_left hd0) (by decide)

theorem c7_add_idempotency_rejection_witness :
    (volume_add ⟨[["r"], ["r", "@v"]], [], [],
        [(["r", "@v"], "/dev/sdb1", "ext4")], []⟩
      { blockDevices := [["dev", "sdb1"]], partUUID := [(["dev", "sdb1"], "U1")],
        mountByUUID := [("U1", "/dev/sdb1", "ext4")] } ["r"] "v" ["dev", "sdb1"]) =
      (⟨[["r"], ["r", "@v"]], [], [], [(["r", "@v"], "/dev/sdb1", "ext4")], []⟩,
       .error ("v" ++ " has already been mounted"))
    ∧ (volume_add ⟨[["r"], ["r", "@v"]], [(["r", "@v", ".uuid"], "U1")], [], [], []⟩
      { blockDevices := [["dev", "sdb1"]], partUUID := [(["dev", "sdb1"], "U1")],
        mountByUUID := [("U1", "/dev/sdb1", "ext4")] } ["r"] "v" ["dev", "sdb1"]) =
      (⟨[["r"], ["r", "@v"]], [(["r", "@v", ".uuid"], "U1")], [], [], []⟩,
       .error ("v" ++ " has already been associated to a partition"))
    ∧ ("v" ++ " has already been mounted") ≠
        ("v" ++ " has already been associated to a partition") :=
  ⟨(c7_add_idempotency_rejection
      ⟨[["r"], ["r", "@v"]], [], [], [(["r", "@v"], "/dev/sdb1", "ext4")], []⟩
      { blockDevices := [["dev", "sdb1"]], partUUID := [(["dev", "sdb1"], "U1")],
        mountByUUID := [("U1", "/dev/sdb1", "ext4")] } ["r"] "v" ["dev", "sdb1"] "U1"
      (by decide) (by decide) (by decide) (by decide)).1
      ("/dev/sdb1", "ext4") (by decide),
   (c7_add_idempotency_rejection
      ⟨[["r"], ["r", "@v"]], [(["r", "@v", ".uuid"], "U1")], [], [], []⟩
      { blockDevices := [["dev", "sdb1"]], partUUID := [(["dev", "sdb1"], "U1")],
        mountByUUID := [("U1", "/dev/sdb1", "ext4")] } ["r"] "v" ["dev", "sdb1"] "U1"
      (by decide) (by decide) (by decide) (by decide)).2.1 (by decide) (by decide),
   (c7_add_idempotency_rejection
      ⟨[["r"], ["r", "@v"]], [], [], [(["r", "@v"], "/dev/sdb1", "ext4")], []⟩
      { blockDevices := [["dev", "sdb1"]], partUUID := [(["dev", "sdb1"], "U1")],
        mountByUUID := [("U1", "/dev/sdb1", "ext4")] } ["r"] "v" ["dev", "sdb1"] "U1"
      (by decide) (by decide) (by decide) (by decide)).2.2⟩

/-- C5 (counterexample): with all preconditions passing but the open of the
`.uuid` marker failing, `volume::add` raises an error yet leaves the freshly
created `root/@v` directory in place — the claim that `root/@{name}` is
absent after any error of `add` past directory creation is false. -/
theorem c5_no_half_done_mutation_counterexample :
    (volume_add ⟨[["r"]], [], [], [], []⟩
      { blockDevices := [["dev", "sdb1"]], partUUID := [(["dev", "sdb1"], "U1")],
        mountByUUID := [], openOk := false } ["r"] "v" ["dev", "sdb1"]).2 =
      .error "Failed to open r/@v/.uuid"
    ∧ (volume_add ⟨[["r"]], [], [], [], []⟩
      { blockDevices := [["dev", "sdb1"]], partUUID := [(["dev", "sdb1"], "U1")],
        mountByUUID := [], openOk := false }
      ["r"] "v" ["dev", "sdb1"]).1.pathExists ["r", "@v"] = true := by
  decide

/-- C5 (amended): `volume::add` rolls back (deleting `root/@{name}`
entirely) only when the final mount step fails; a failure to open, write or
close the `.uuid` marker raises an error but leaves the just-created
directory — and, after a write or close failure, a marker file — behind. -/
theorem c5_no_half_done_mutation_amended
    (σ : FS) (env : Env) (root : Path) (name : String) (device : Path) (uuid : String)
    (hname : name ≠ "default")
    (hdev : device ∈ env.blockDevices)
    (huuid : partUUIDOf env device = some uuid)
    (hne : uuid ≠ "")
    (hnm : get_source_device_from_mountpoint σ (root.childOf ("@" ++ name)) = none)
    (hnofile : σ.pathExists ((root.childOf ("@" ++ name)).childOf ".uuid") = false) :
    (env.openOk = false →
       (volume_add σ env root name device).2 =
         .error ("Failed to open " ++ pathStr ((root.childOf ("@" ++ name)).childOf ".uuid"))
       ∧ (volume_add σ env root name device).1.isDir (root.childOf ("@" ++ name)) = true)
    ∧ (env.openOk = true → env.writeOk = false →
       (volume_add σ env root name device).2 =
         .error ("Failed writing to " ++ pathStr ((root.childOf ("@" ++ name)).childOf ".uuid"))
       ∧ (volume_add σ env root name device).1.isDir (root.childOf ("@" ++ name)) = true)
    ∧ (env.openOk = true → env.writeOk = true → env.closeOk = false →
       (volume_add σ env root name device).2 =
         .error ("Failed to close " ++ pathStr ((root.childOf ("@" ++ name)).childOf ".uuid"))
       ∧ (volume_add σ env root name device).1.isDir (root.childOf ("@" ++ name)) = true)
    ∧ (env.openOk = true → env.writeOk = true → env.closeOk = true →
       env.mountByUUID.find? (fun e => decide (e.1 = uuid)) = none →
       (volume_add σ env root name device).1.pathExists (root.childOf ("@" ++ name)) = false) := by
  have hdirbase : (σ.mkdirAll (root.childOf ("@" ++ name))).isDir
      (root.childOf ("@" ++ name)) = true :=
    isDir_mkdirAll_self σ (Path.childOf_ne_nil root ("@" ++ name))
  by_cases hsub : (σ.mkdirAll (root.childOf ("@" ++ name))).pathExists
      ((root.childOf ("@" ++ name)).childOf ".subvolume") = true
  · refine ⟨?_, ?_, ?_, ?_⟩
    · intro hopen
      constructor
      · simp [volume_add, hname, hdev, huuid, hne, hnm, hnofile, hopen, hsub]
      · have hst : (volume_add σ env root name device).1 =
            (σ.mkdirAll (root.childOf ("@" ++ name))).removeFileAt
              ((root.childOf ("@" ++ name)).childOf ".subvolume") := by
          simp [volume_add, hname, hdev, huuid, hne, hnm, hnofile, hopen, hsub]
        rw [hst]
        exact hdirbase
    · intro hopen hwrite
      constructor
      · simp [volume_add, hname, hdev, huuid, hne, hnm, hnofile, hopen, hwrite, hsub]
      · have hst : (volume_add σ env root name device).1 =
            ((σ.mkdirAll (root.childOf ("@" ++ name))).removeFileAt
              ((root.childOf ("@" ++ name)).childOf ".subvolume")).writeFileAt
              ((root.childOf ("@" ++ name)).childOf ".uuid") "" := by
          simp [volume_add, hname, hdev, huuid, hne, hnm, hnofile, hopen, hwrite, hsub]
        rw [hst]
        exact hdirbase
    · intro hopen hwrite hclose
      constructor
      · simp [volume_add, hname, hdev, huuid, hne, hnm, hnofile, hopen, hwrite,
          hclose, hsub]
      · have hst : (volume_add σ env root name device).1 =
            ((σ.mkdirAll (root.childOf ("@" ++ name))).removeFileAt
              ((root.childOf ("@" ++ name)).childOf ".subvolume")).writeFileAt
              ((root.childOf ("@" ++ name)).childOf ".uuid") uuid := by
          simp [volume_add, hname, hdev, huuid, hne, hnm, hnofile, hopen, hwrite,
            hclose, hsub]
        rw [hst]
        exact hdirbase
    · intro hopen hwrite hclose hmount
      have hst : (volume_add σ env root name device).1 =
          FS.removeAll (((σ.mkdirAll (root.childOf ("@" ++ name))).removeFileAt
              ((root.childOf ("@" ++ name)).childOf ".subvolume")).writeFileAt
              ((root.childOf ("@" ++ name)).childOf ".uuid") uuid)
            (root.childOf ("@" ++ name)) := by
        simp [volume_add, hname, hdev, huuid, hne, hnm, hnofile, hopen, hwrite,
          hclose, hmount, hsub]
      rw [hst]
      exact pathExists_removeAll _ (underPath_self _)
  · refine ⟨?_, ?_, ?_, ?_⟩
    · intro hopen
      constructor
      · simp [volume_add, hname, hdev, huuid, hne, hnm, hnofile, hopen, hsub]
      · have hst : (volume_add σ env root name device).1 =
            σ.mkdirAll (root.childOf ("@" ++ name)) := by
          simp [volume_add, hname, hdev, huuid, hne, hnm, hnofile, hopen, hsub]
        rw [hst]
        exact hdirbase
    · intro hopen hwrite
      constructor
      · simp [volume_add, hname, hdev, huuid, hne, hnm, hnofile, hopen, hwrite, hsub]
      · have hst : (volume_add σ env root name device).1 =
            (σ.mkdirAll (root.childOf ("@" ++ name))).writeFileAt
              ((root.childOf ("@" ++ name)).childOf ".uuid") "" := by
          simp [volume_add, hname, hdev, huuid, hne, hnm, hnofile, hopen, hwrite, hsub]
        rw [hst]
        exact hdirbase
    · intro hopen hwrite hclose
      constructor
      · simp [volume_add, hname, hdev, huuid, hne, hnm, hnofile, hopen, hwrite,
          hclose, hsub]
      · have hst : (volume_add σ env root name device).1 =
            (σ.mkdirAll (root.childOf ("@" ++ name))).writeFileAt
              ((root.childOf ("@" ++ name)).childOf ".uuid") uuid := by
          simp [volume_add, hname, hdev, huuid, hne, hnm, hnofile, hopen, hwrite,
            hclose, hsub]
        rw [hst]
        exact hdirbase
    · intro hopen hwrite hclose hmount
      have hst : (volume_add σ env root name device).1 =
          FS.removeAll ((σ.mkdirAll (root.childOf ("@" ++ name))).writeFileAt
              ((root.childOf ("@" ++ name)).childOf ".uuid") uuid)
            (root.childOf ("@" ++ name)) := by
        simp [volume_add, hname, hdev, huuid, hne, hnm, hnofile, hopen, hwrite,
          hclose, hmount, hsub]
      rw [hst]
      exact pathExists_removeAll _ (underPath_self _)

theorem c5_no_half_done_mutation_amended_witness :
    ((volume_add ⟨[["r"]], [], [], [], []⟩
      { blockDevices := [["dev", "sdb1"]], partUUID := [(["dev", "sdb1"], "U1")],
        mountByUUID := [], openOk := false } ["r"] "v" ["dev", "sdb1"]).2 =
      .error ("Failed to open " ++ pathStr ((Path.childOf ["r"] ("@" ++ "v")).childOf ".uuid"))
     ∧ (volume_add ⟨[["r"]], [], [], [], []⟩
      { blockDevices := [["dev", "sdb1"]], partUUID := [(["dev", "sdb1"], "U1")],
        mountByUUID := [], openOk := false }
      ["r"] "v" ["dev", "sdb1"]).1.isDir (Path.childOf ["r"] ("@" ++ "v")) = true) :=
  (c5_no_half_done_mutation_amended ⟨[["r"]], [], [], [], []⟩
    { blockDevices := [["dev", "sdb1"]], partUUID := [(["dev", "sdb1"], "U1")],
      mountByUUID := [], openOk := false } ["r"] "v" ["dev", "sdb1"] "U1"
    (by decide) (by decide) (by decide) (by decide) (by decide) (by decide)).1 rfl

/-- For a non-default name, a successful resolver answer is always the
`root/@{name}` path, and that path is then a mount point. -/
theorem get_volume_dir_eq_some {σ : FS} {root : Path} {n : String} {p : Path}
    (hn : n ≠ "default") (h : get_volume_dir σ root n = some p) :
    p = root.childOf ("@" ++ n)
    ∧ (get_source_device_from_mountpoint σ (root.childOf ("@" ++ n))).isSome = true := by
  by_cases hm : (get_source_device_from_mountpoint σ (root.childOf ("@" ++ n))).isSome = true
  · rw [get_volume_dir] at h
    rw [if_neg hn, if_pos hm] at h
    exact ⟨(Option.some.inj h).symm, hm⟩
  · rw [get_volume_dir] at h
    rw [if_neg hn, if_neg hm] at h
    cases h

/-- C3: for a VM whose canonical path `root/vmname` is a symlink, the
resolution performed by `vm::_delete` fails with an error unless the link
target's parent directory has an `@`-prefixed filename AND the Volume
Resolver, applied to that name with the `@` stripped, returns exactly that
parent; in particular, once the target volume's directory is unmounted (or
gone), resolution fails instead of silently following the stale symlink. -/
theorem c3_vm_delete_revalidation
    (σ : FS) (root : Path) (vmname : String) (tgt : SymTarget)
    (hlink : σ.readSymlinkOf (root.childOf vmname) = some tgt)
    (hdir : σ.isDirFollow (root.childOf vmname) = true) :
    (¬ (startsWithAtSign (resolveTarget (root.childOf vmname) tgt).parentDir.filenameOf = true
        ∧ get_volume_dir σ root
            (dropFirstChar (resolveTarget (root.childOf vmname) tgt).parentDir.filenameOf)
          = some (resolveTarget (root.childOf vmname) tgt).parentDir) →
      ∃ msg, vmDeleteResolve σ root vmname = .error msg)
    ∧ ((startsWithAtSign (resolveTarget (root.childOf vmname) tgt).parentDir.filenameOf = true
        ∧ get_volume_dir σ root
            (dropFirstChar (resolveTarget (root.childOf vmname) tgt).parentDir.filenameOf)
          = some (resolveTarget (root.childOf vmname) tgt).parentDir) →
      vmDeleteResolve σ root vmname =
        .ok (resolveTarget (root.childOf vmname) tgt,
             some (resolveTarget (root.childOf vmname) tgt).parentDir))
    ∧ (dropFirstChar (resolveTarget (root.childOf vmname) tgt).parentDir.filenameOf ≠ "default" →
       get_source_device_from_mountpoint σ
           (resolveTarget (root.childOf vmname) tgt).parentDir = none →
       ∃ msg, vmDeleteResolve σ root vmname = .error msg) := by
  have hfail : ¬ (startsWithAtSign (resolveTarget (root.childOf vmname) tgt).parentDir.filenameOf = true
        ∧ get_volume_dir σ root
            (dropFirstChar (resolveTarget (root.childOf vmname) tgt).parentDir.filenameOf)
          = some (resolveTarget (root.childOf vmname) tgt).parentDir) →
      ∃ msg, vmDeleteResolve σ root vmname = .error msg := by
    intro hno
    by_cases hat : startsWithAtSign
        (resolveTarget (root.childOf vmname) tgt).parentDir.filenameOf = true
    · cases hgd : get_volume_dir σ root
          (dropFirstChar (resolveTarget (root.childOf vmname) tgt).parentDir.filenameOf) with
      | none =>
        refine ⟨"Volume " ++
          dropFirstChar (resolveTarget (root.childOf vmname) tgt).parentDir.filenameOf ++
          " does not exist", ?_⟩
        simp [vmDeleteResolve, hdir, hlink, hat, hgd]
      | some sb =>
        have hsb : sb ≠ (resolveTarget (root.childOf vmname) tgt).parentDir := by
          intro he
          exact hno ⟨hat, by rw [hgd, he]⟩
        refine ⟨"Symlink " ++ pathStr (root.childOf vmname) ++ "(points " ++
          pathStr (resolveTarget (root.childOf vmname) tgt) ++
          ") does not point VM dir right under volume", ?_⟩
        simp [vmDeleteResolve, hdir, hlink, hat, hgd, hsb]
    · refine ⟨pathStr (resolveTarget (root.childOf vmname) tgt).parentDir ++
        " is not a volume path", ?_⟩
      simp [vmDeleteResolve, hdir, hlink, hat]
  refine ⟨hfail, ?_, ?_⟩
  · rintro ⟨h1, h2⟩
    simp [vmDeleteResolve, hdir, hlink, h1, h2]
  · intro hnd hnm
    refine hfail ?_
    rintro ⟨-, heq⟩
    obtain ⟨hp, hm⟩ := get_volume_dir_eq_some hnd heq
    rw [← hp, hnm] at hm
    cases hm

theorem c3_vm_delete_revalidation_witness :
    (vmDeleteResolve ⟨[["r"], ["r", "@v"], ["r", "@v", "m"]], [],
        [(["r", "m"], .rel ["@v", "m"])],
        [(["r", "@v"], "/dev/sdb1", "ext4")], []⟩ ["r"] "m" =
      .ok (resolveTarget (Path.childOf ["r"] "m") (.rel ["@v", "m"]),
           some (resolveTarget (Path.childOf ["r"] "m") (.rel ["@v", "m"])).parentDir))
    ∧ (∃ msg, vmDeleteResolve ⟨[["r"], ["r", "@v"], ["r", "@v", "m"]], [],
        [(["r", "m"], .rel ["@v", "m"])], [], []⟩ ["r"] "m" = .error msg) :=
  ⟨(c3_vm_delete_revalidation
      ⟨[["r"], ["r", "@v"], ["r", "@v", "m"]], [],
        [(["r", "m"], .rel ["@v", "m"])],
        [(["r", "@v"], "/dev/sdb1", "ext4")], []⟩
      ["r"] "m" (.rel ["@v", "m"]) (by decide) (by decide)).2.1
      ⟨by decide, by decide⟩,
   (c3_vm_delete_revalidation
      ⟨[["r"], ["r", "@v"], ["r", "@v", "m"]], [],
        [(["r", "m"], .rel ["@v", "m"])], [], []⟩
      ["r"] "m" (.rel ["@v", "m"]) (by decide) (by decide)).2.2
      (by decide) (by decide)⟩

/-- Mounting at one target does not change what the Mount Inspector reports
for a different path. -/
theorem resolveMount_addMount_other {σ : FS} {q p : Path} {d f : String}
    (hne : q ≠ p) :
    get_source_device_from_mountpoint (σ.addMount q d f) p =
      get_source_device_from_mountpoint σ p := by
  have h1 : (σ.addMount q d f).pathExists p = σ.pathExists p := rfl
  have h2 : (σ.addMount q d f).isDir p = σ.isDir p := rfl
  have h3 : (σ.addMount q d f).mounts = σ.mounts ++ [(q, d, f)] := rfl
  rw [get_source_device_from_mountpoint, get_source_device_from_mountpoint,
    h1, h2, h3]
  by_cases hc : (σ.pathExists p && σ.isDir p) = true
  · rw [if_neg (not_not_intro hc), if_neg (not_not_intro hc), List.reverse_append]
    simp [List.find?, hne]
  · rw [if_pos hc, if_pos hc]

theorem scanStep_files (env : Env) (acc : FS × List (String × Bool)) (q : Path) :
    (scanStep env acc q).1.files = acc.1.files := by
  rw [scanStep]
  dsimp only
  repeat' split
  all_goals rfl

theorem scanStep_fileContent (env : Env) (acc : FS × List (String × Bool))
    (q r : Path) : (scanStep env acc q).1.fileContent r = acc.1.fileContent r := by
  rw [FS.fileContent, FS.fileContent, scanStep_files]

theorem scanStep_resolveMount_other (env : Env) (acc : FS × List (String × Bool))
    {q p : Path} (hne : q ≠ p) :
    get_source_device_from_mountpoint (scanStep env acc q).1 p =
      get_source_device_from_mountpoint acc.1 p := by
  rw [scanStep]
  dsimp only
  repeat' split
  all_goals first
    | rfl
    | exact resolveMount_addMount_other hne

theorem scanStep_reports (env : Env) (acc : FS × List (String × Bool)) (q : Path) :
    ∃ u, (scanStep env acc q).2 = acc.2 ++ u := by
  rw [scanStep]
  dsimp only
  repeat' split
  all_goals first
    | exact ⟨[], (List.append_nil _).symm⟩
    | exact ⟨_, rfl⟩

/-- The per-volume reports only grow as the scan loop proceeds. -/
theorem foldl_scan_reports (env : Env) :
    ∀ (l : List Path) (s : FS × List (String × Bool)),
    ∃ u, (l.foldl (scanStep env) s).2 = s.2 ++ u := by
  intro l
  induction l with
  | nil => exact fun s => ⟨[], (List.append_nil _).symm⟩
  | cons q t ih =>
    intro s
    rw [List.foldl_cons]
    obtain ⟨u1, hu1⟩ := scanStep_reports env s q
    obtain ⟨u2, hu2⟩ := ih (scanStep env s q)
    exact ⟨u1 ++ u2, by rw [hu2, hu1, List.append_assoc]⟩

/-- Every candidate that is `@`-prefixed, not named `default`, unmounted and
holds a readable `.uuid` gets its own mount attempt reported, with the
outcome determined solely by whether its own UUID is mountable. -/
theorem scan_fold_mem (env : Env) (p : Path) (content : String) :
    ∀ (l : List Path) (σ0 : FS) (acc : List (String × Bool)),
    p ∈ l →
    startsWithAtSign p.filenameOf = true →
    dropFirstChar p.filenameOf ≠ "default" →
    get_source_device_from_mountpoint σ0 p = none →
    σ0.fileContent (p.childOf ".uuid") = some content →
    (dropFirstChar p.filenameOf,
      (env.mountByUUID.find? (fun e => decide (e.1 = firstToken content))).isSome)
      ∈ (l.foldl (scanStep env) (σ0, acc)).2 := by
  intro l
  induction l with
  | nil => intro σ0 acc hp _ _ _ _; cases hp
  | cons q t ih =>
    intro σ0 acc hp hat hnd hnm hf
    rw [List.foldl_cons]
    by_cases hqp : q = p
    · subst hqp
      cases hm : env.mountByUUID.find? (fun e => decide (e.1 = firstToken content)) with
      | some d =>
        have hstep : scanStep env (σ0, acc) q =
            (σ0.addMount q d.2.1 d.2.2,
             acc ++ [(dropFirstChar q.filenameOf, true)]) := by
          simp [scanStep, hat, hnd, hnm, hf, hm]
        rw [hstep]
        obtain ⟨u, hu⟩ := foldl_scan_reports env t
          (σ0.addMount q d.2.1 d.2.2, acc ++ [(dropFirstChar q.filenameOf, true)])
        rw [hu]
        simp
      | none =>
        have hstep : scanStep env (σ0, acc) q =
            (σ0, acc ++ [(dropFirstChar q.filenameOf, false)]) := by
          simp [scanStep, hat, hnd, hnm, hf, hm]
        rw [hstep]
        obtain ⟨u, hu⟩ := foldl_scan_reports env t
          (σ0, acc ++ [(dropFirstChar q.filenameOf, false)])
        rw [hu]
        simp
    · have hpt : p ∈ t := by
        rcases List.mem_cons.mp hp with h | h
        · exact absurd h.symm hqp
        · exact h
      have hnm1 : get_source_device_from_mountpoint (scanStep env (σ0, acc) q).1 p
          = none := by
        rw [scanStep_resolveMount_other env (σ0, acc) hqp, hnm]
      have hf1 : (scanStep env (σ0, acc) q).1.fileContent (p.childOf ".uuid")
          = some content := by
        rw [scanStep_fileContent, hf]
      have := ih (scanStep env (σ0, acc) q).1 (scanStep env (σ0, acc) q).2
        hpt hat hnd hnm1 hf1
      simpa using this

/-- C9 (counterexample): an unmounted `@default` subdirectory with a
readable (and mountable) `.uuid` marker is silently skipped by
`volume::scan` — no mount attempt is made and nothing is reported — so the
claim's "each '@'-prefixed subdirectory that is not already mounted and has
a readable `.uuid`" is not attempted in this case. -/
theorem c9_scan_counterexample :
    (volume_scan ⟨[["r"], ["r", "@default"]],
        [(["r", "@default", ".uuid"], "U1")], [], [], []⟩
      { blockDevices := [], partUUID := [],
        mountByUUID := [("U1", "/dev/sda1", "ext4")] } ["r"]).reports = []
    ∧ (volume_scan ⟨[["r"], ["r", "@default"]],
        [(["r", "@default", ".uuid"], "U1")], [], [], []⟩
      { blockDevices := [], partUUID := [],
        mountByUUID := [("U1", "/dev/sda1", "ext4")] } ["r"]).state.mounts = [] := by
  decide

/-- C9 (amended): `volume::scan` attempts to mount by UUID each
`@`-prefixed subdirectory **other than the reserved `@default`** that is not
already mounted and has a readable `.uuid`; each attempt is independent (its
reported outcome depends only on its own UUID), a failed attempt does not
abort the scan of the remaining candidates, and scan always returns exit
status 0. -/
theorem c9_scan_amended (σ : FS) (env : Env) (root : Path) :
    (volume_scan σ env root).exit = 0
    ∧ ∀ p ∈ rootChildren σ root,
        startsWithAtSign p.filenameOf = true →
        dropFirstChar p.filenameOf ≠ "default" →
        get_source_device_from_mountpoint σ p = none →
        ∀ content, σ.fileContent (p.childOf ".uuid") = some content →
        (dropFirstChar p.filenameOf,
          (env.mountByUUID.find? (fun e => decide (e.1 = firstToken content))).isSome)
          ∈ (volume_scan σ env root).reports := by
  refine ⟨rfl, ?_⟩
  intro p hp hat hnd hnm content hf
  exact scan_fold_mem env p content (rootChildren σ root) σ [] hp hat hnd hnm hf

theorem c9_scan_amended_witness :
    (volume_scan ⟨[["r"], ["r", "@a"], ["r", "@b"]],
        [(["r", "@a", ".uuid"], "U1"), (["r", "@b", ".uuid"], "U2")], [], [], []⟩
      { blockDevices := [], partUUID := [],
        mountByUUID := [("U1", "/dev/sda1", "ext4")] } ["r"]).exit = 0
    ∧ ("a", true) ∈ (volume_scan ⟨[["r"], ["r", "@a"], ["r", "@b"]],
        [(["r", "@a", ".uuid"], "U1"), (["r", "@b", ".uuid"], "U2")], [], [], []⟩
      { blockDevices := [], partUUID := [],
        mountByUUID := [("U1", "/dev/sda1", "ext4")] } ["r"]).reports
    ∧ ("b", false) ∈ (volume_scan ⟨[["r"], ["r", "@a"], ["r", "@b"]],
        [(["r", "@a", ".uuid"], "U1"), (["r", "@b", ".uuid"], "U2")], [], [], []⟩
      { blockDevices := [], partUUID := [],
        mountByUUID := [("U1", "/dev/sda1", "ext4")] } ["r"]).reports :=
  ⟨(c9_scan_amended ⟨[["r"], ["r", "@a"], ["r", "@b"]],
      [(["r", "@a", ".uuid"], "U1"), (["r", "@b", ".uuid"], "U2")], [], [], []⟩
      { blockDevices := [], partUUID := [],
        mountByUUID := [("U1", "/dev/sda1", "ext4")] } ["r"]).1,
   by
    have h := (c9_scan_amended ⟨[["r"], ["r", "@a"], ["r", "@b"]],
      [(["r", "@a", ".uuid"], "U1"), (["r", "@b", ".uuid"], "U2")], [], [], []⟩
      { blockDevices := [], partUUID := [],
        mountByUUID := [("U1", "/dev/sda1", "ext4")] } ["r"]).2
      ["r", "@a"] (by decide) (by decide) (by decide) (by decide) "U1" (by decide)
    simpa using h,
   by
    have h := (c9_scan_amended ⟨[["r"], ["r", "@a"], ["r", "@b"]],
      [(["r", "@a", ".uuid"], "U1"), (["r", "@b", ".uuid"], "U2")], [], [], []⟩
      { blockDevices := [], partUUID := [],
        mountByUUID := [("U1", "/dev/sda1", "ext4")] } ["r"]).2
      ["r", "@b"] (by decide) (by decide) (by decide) (by decide) "U2" (by decide)
    simpa using h⟩

/-! ## Injectivity of the lowercase UUID rendering -/

theorem string_ext {x y : String} (h : x.data = y.data) : x = y := by
  cases x
  cases y
  exact congrArg String.mk h

theorem string_append_left_cancel {a x y : String} (h : a ++ x = a ++ y) : x = y := by
  have hd := congrArg String.data h
  rw [string_data_append, string_data_append] at hd
  exact string_ext (List.append_cancel_left hd)

theorem hexDigit_inj_fin : ∀ a b : Fin 16, hexDigit a.val = hexDigit b.val → a = b := by
  decide

theorem hexDigit_inj {a b : Nat} (ha : a < 16) (hb : b < 16)
    (h : hexDigit a = hexDigit b) : a = b := by
  have := hexDigit_inj_fin ⟨a, ha⟩ ⟨b, hb⟩ h
  simpa using congrArg Fin.val this

theorem hexPair_inj {a b : Nat} (ha : a < 256) (hb : b < 256)
    (h : hexPair a = hexPair b) : a = b := by
  rw [hexPair, hexPair] at h
  simp only [List.cons.injEq, and_true] at h
  have hdiva : a / 16 < 16 := (Nat.div_lt_iff_lt_mul (by norm_num)).mpr ha
  have hdivb : b / 16 < 16 := (Nat.div_lt_iff_lt_mul (by norm_num)).mpr hb
  have h1 := hexDigit_inj hdiva hdivb h.1
  have h2 := hexDigit_inj (Nat.mod_lt _ (by norm_num)) (Nat.mod_lt _ (by norm_num)) h.2
  omega

theorem bytesHex_cons (a : Nat) (t : List Nat) :
    bytesHex (a :: t) = hexPair a ++ bytesHex t := rfl

theorem bytesHex_length (l : List Nat) : (bytesHex l).length = 2 * l.length := by
  induction l with
  | nil => rfl
  | cons a t ih =>
    rw [bytesHex_cons, List.length_append, ih]
    have h2 : (hexPair a).length = 2 := rfl
    rw [h2, List.length_cons]
    omega

theorem bytesHex_inj : ∀ (l1 l2 : List Nat), l1.length = l2.length →
    (∀ b ∈ l1, b < 256) → (∀ b ∈ l2, b < 256) →
    bytesHex l1 = bytesHex l2 → l1 = l2 := by
  intro l1
  induction l1 with
  | nil =>
    intro l2 hlen _ _ _
    cases l2 with
    | nil => rfl
    | cons b t2 => simp at hlen
  | cons a t ih =>
    intro l2 hlen h1 h2 h
    cases l2 with
    | nil => simp at hlen
    | cons b t2 =>
      rw [bytesHex_cons, bytesHex_cons] at h
      obtain ⟨hh, ht⟩ := List.append_inj h rfl
      have hab := hexPair_inj (h1 a (List.mem_cons_self a t))
        (h2 b (List.mem_cons_self b t2)) hh
      have htt := ih t2 (by simpa using hlen)
        (fun x hx => h1 x (List.mem_cons_of_mem a hx))
        (fun x hx => h2 x (List.mem_cons_of_mem b hx)) ht
      rw [hab, htt]

theorem split_into_pieces (l : List Nat) :
    l.take 4 ++ ((l.drop 4).take 2 ++ ((l.drop 6).take 2 ++
      ((l.drop 8).take 2 ++ l.drop 10))) = l := by
  have h1 : (l.drop 8).take 2 ++ l.drop 10 = l.drop 8 := by
    have h := List.take_append_drop 2 (l.drop 8)
    rw [List.drop_drop] at h
    norm_num at h
    exact h
  rw [h1]
  have h2 : (l.drop 6).take 2 ++ l.drop 8 = l.drop 6 := by
    have h := List.take_append_drop 2 (l.drop 6)
    rw [List.drop_drop] at h
    norm_num at h
    exact h
  rw [h2]
  have h3 : (l.drop 4).take 2 ++ l.drop 6 = l.drop 4 := by
    have h := List.take_append_drop 2 (l.drop 4)
    rw [List.drop_drop] at h
    norm_num at h
    exact h
  rw [h3]
  exact List.take_append_drop 4 l

/-- Two distinct 16-byte values render to distinct lowercase UUID strings. -/
theorem uuidUnparseLower_inj {l1 l2 : List Nat}
    (hlen1 : l1.length = 16) (hlen2 : l2.length = 16)
    (hb1 : ∀ b ∈ l1, b < 256) (hb2 : ∀ b ∈ l2, b < 256)
    (h : uuidUnparseLower l1 = uuidUnparseLower l2) : l1 = l2 := by
  have hd := congrArg String.data h
  rw [uuidUnparseLower, uuidUnparseLower] at hd
  dsimp only at hd
  simp only [List.append_assoc, List.cons_append] at hd
  have len1 : (bytesHex (l1.take 4)).length = (bytesHex (l2.take 4)).length := by
    rw [bytesHex_length, bytesHex_length, List.length_take, List.length_take,
      hlen1, hlen2]
  obtain ⟨e1, hr1⟩ := List.append_inj hd len1
  injection hr1 with _ hr1'
  have len2 : (bytesHex ((l1.drop 4).take 2)).length =
      (bytesHex ((l2.drop 4).take 2)).length := by
    rw [bytesHex_length, bytesHex_length, List.length_take, List.length_take,
      List.length_drop, List.length_drop, hlen1, hlen2]
  obtain ⟨e2, hr2⟩ := List.append_inj hr1' len2
  injection hr2 with _ hr2'
  have len3 : (bytesHex ((l1.drop 6).take 2)).length =
      (bytesHex ((l2.drop 6).take 2)).length := by
    rw [bytesHex_length, bytesHex_length, List.length_take, List.length_take,
      List.length_drop, List.length_drop, hlen1, hlen2]
  obtain ⟨e3, hr3⟩ := List.append_inj hr2' len3
  injection hr3 with _ hr3'
  have len4 : (bytesHex ((l1.drop 8).take 2)).length =
      (bytesHex ((l2.drop 8).take 2)).length := by
    rw [bytesHex_length, bytesHex_length, List.length_take, List.length_take,
      List.length_drop, List.length_drop, hlen1, hlen2]
  obtain ⟨e4, hr4⟩ := List.append_inj hr3' len4
  injection hr4 with _ e5
  have p1 : l1.take 4 = l2.take 4 :=
    bytesHex_inj _ _ (by rw [List.length_take, List.length_take, hlen1, hlen2])
      (fun b hb => hb1 b (List.take_subset _ _ hb))
      (fun b hb => hb2 b (List.take_subset _ _ hb)) e1
  have p2 : (l1.drop 4).take 2 = (l2.drop 4).take 2 :=
    bytesHex_inj _ _ (by rw [List.length_take, List.length_take,
        List.length_drop, List.length_drop, hlen1, hlen2])
      (fun b hb => hb1 b (List.drop_subset _ _ (List.take_subset _ _ hb)))
      (fun b hb => hb2 b (List.drop_subset _ _ (List.take_subset _ _ hb))) e2
  have p3 : (l1.drop 6).take 2 = (l2.drop 6).take 2 :=
    bytesHex_inj _ _ (by rw [List.length_take, List.length_take,
        List.length_drop, List.length_drop, hlen1, hlen2])
      (fun b hb => hb1 b (List.drop_subset _ _ (List.take_subset _ _ hb)))
      (fun b hb => hb2 b (List.drop_subset _ _ (List.take_subset _ _ hb))) e3
  have p4 : (l1.drop 8).take 2 = (l2.drop 8).take 2 :=
    bytesHex_inj _ _ (by rw [List.length_take, List.length_take,
        List.length_drop, List.length_drop, hlen1, hlen2])
      (fun b hb => hb1 b (List.drop_subset _ _ (List.take_subset _ _ hb)))
      (fun b hb => hb2 b (List.drop_subset _ _ (List.take_subset _ _ hb))) e4
  have p5 : l1.drop 10 = l2.drop 10 :=
    bytesHex_inj _ _ (by rw [List.length_drop, List.length_drop, hlen1, hlen2])
      (fun b hb => hb1 b (List.drop_subset _ _ hb))
      (fun b hb => hb2 b (List.drop_subset _ _ hb)) e5
  rw [← split_into_pieces l1, ← split_into_pieces l2, p1, p2, p3, p4, p5]

theorem movePath_self (src dst : Path) : movePath src dst src = dst := by
  rw [movePath, if_pos (underPath_self src)]
  simp [List.drop_length]

theorem movePath_append (src dst rest : Path) :
    movePath src dst (src ++ rest) = dst ++ rest := by
  rw [movePath, if_pos (underPath_append src rest)]
  rw [List.drop_left]

theorem movePath_ne_src {src dst : Path} (hnu : underPath dst src = false) :
    ∀ q, movePath src dst q ≠ src := by
  intro q h
  rw [movePath] at h
  by_cases hu : underPath src q = true
  · rw [if_pos hu] at h
    have : underPath dst src = true := by
      rw [← h, underPath]
      simp [List.take_left]
    rw [this] at hnu
    cases hnu
  · rw [if_neg hu] at h
    exact hu (h ▸ underPath_self src)

/-- A directory-tree rename keeps the tree at the new location, removes it
from the old one, and preserves file contents under the new prefix. -/
theorem renameTree_facts (σ2 : FS) (real tgt : Path)
    (hnotunder : underPath tgt real = false) :
    (real ∈ σ2.dirs → tgt ∈ (σ2.renameTree real tgt).dirs)
    ∧ real ∉ (σ2.renameTree real tgt).dirs
    ∧ (∀ rest c, (real ++ rest, c) ∈ σ2.files →
        (tgt ++ rest, c) ∈ (σ2.renameTree real tgt).files) := by
  refine ⟨?_, ?_, ?_⟩
  · intro hreal
    have h := List.mem_map_of_mem (movePath real tgt) hreal
    rw [movePath_self] at h
    exact h
  · intro hmem
    obtain ⟨q, hq, hqe⟩ := List.mem_map.mp hmem
    exact movePath_ne_src hnotunder q hqe
  · intro rest c hmem
    have h := List.mem_map_of_mem (fun e => (movePath real tgt e.1, e.2)) hmem
    dsimp only at h
    rw [movePath_append] at h
    exact h

theorem childOf_inj_right {p : Path} {a b : String} (h : p.childOf a = p.childOf b) :
    a = b := by
  rw [Path.childOf, Path.childOf] at h
  simpa using List.append_cancel_left h

theorem c8_core (σ σ1 : FS) (real tgt trash : Path)
    (hd : σ1.dirs = σ.dirs) (hf : σ1.files = σ.files)
    (hnotunder : underPath tgt real = false) :
    (real ∈ σ.dirs → tgt ∈ ((σ1.mkdirAll trash).renameTree real tgt).dirs)
    ∧ real ∉ ((σ1.mkdirAll trash).renameTree real tgt).dirs
    ∧ (∀ rest c, (real ++ rest, c) ∈ σ.files →
        (tgt ++ rest, c) ∈ ((σ1.mkdirAll trash).renameTree real tgt).files) := by
  obtain ⟨f1, f2, f3⟩ := renameTree_facts (σ1.mkdirAll trash) real tgt hnotunder
  refine ⟨?_, f2, ?_⟩
  · intro hreal
    apply f1
    show real ∈ σ1.dirs ++ _
    rw [hd]
    exact List.mem_append.mpr (Or.inl hreal)
  · intro rest c hm
    apply f3
    show (real ++ rest, c) ∈ σ1.files
    rw [hf]
    exact hm

/-- C8: a successful `vm delete` does not erase the VM's real backing
directory; it renames it to `{parent}/.trash/{vmname}.{suffix}` where
`parent` is the containing volume directory for an indirected VM and the
root otherwise, and the suffix is the 128-bit identifier from
`uuid_generate` rendered as lowercase UUID text; two deletes with distinct
identifiers produce distinct, non-colliding `.trash` entries. -/
theorem c8_delete_moves_to_trash (σ : FS) (root : Path) (vmname : String)
    (real : Path) (vdirOpt : Option Path) (u : List Nat)
    (hres : vmDeleteResolve σ root vmname = .ok (real, vdirOpt))
    (hnotunder : underPath (((vdirOpt.getD root).childOf ".trash").childOf
        (vmname ++ "." ++ uuidUnparseLower u)) real = false) :
    (vm_delete σ root vmname false u).2 =
      .ok (((vdirOpt.getD root).childOf ".trash").childOf
        (vmname ++ "." ++ uuidUnparseLower u))
    ∧ (real ∈ σ.dirs →
        ((vdirOpt.getD root).childOf ".trash").childOf
          (vmname ++ "." ++ uuidUnparseLower u) ∈ (vm_delete σ root vmname false u).1.dirs)
    ∧ real ∉ (vm_delete σ root vmname false u).1.dirs
    ∧ (∀ rest c, (real ++ rest, c) ∈ σ.files →
        (((vdirOpt.getD root).childOf ".trash").childOf
          (vmname ++ "." ++ uuidUnparseLower u) ++ rest, c)
          ∈ (vm_delete σ root vmname false u).1.files)
    ∧ (∀ u2 : List Nat, u.length = 16 → u2.length = 16 →
        (∀ b ∈ u, b < 256) → (∀ b ∈ u2, b < 256) → u ≠ u2 →
        ((vdirOpt.getD root).childOf ".trash").childOf
          (vmname ++ "." ++ uuidUnparseLower u)
        ≠ ((vdirOpt.getD root).childOf ".trash").childOf
          (vmname ++ "." ++ uuidUnparseLower u2)) := by
  have hdistinct : ∀ u2 : List Nat, u.length = 16 → u2.length = 16 →
      (∀ b ∈ u, b < 256) → (∀ b ∈ u2, b < 256) → u ≠ u2 →
      ((vdirOpt.getD root).childOf ".trash").childOf
        (vmname ++ "." ++ uuidUnparseLower u)
      ≠ ((vdirOpt.getD root).childOf ".trash").childOf
        (vmname ++ "." ++ uuidUnparseLower u2) := by
    intro u2 h16 h16' hbu hbu' hne heq
    have hnames := childOf_inj_right heq
    have hun : uuidUnparseLower u = uuidUnparseLower u2 :=
      string_append_left_cancel (a := vmname ++ ".") hnames
    exact hne (uuidUnparseLower_inj h16 h16' hbu hbu' hun)
  by_cases hsl : σ.isSymlink (root.childOf vmname) = true
  · have hcomp : vm_delete σ root vmname false u =
        (((σ.removeSymlinkAt (root.childOf vmname)).mkdirAll
            ((vdirOpt.getD root).childOf ".trash")).renameTree real
          (((vdirOpt.getD root).childOf ".trash").childOf
            (vmname ++ "." ++ uuidUnparseLower u)),
         .ok (((vdirOpt.getD root).childOf ".trash").childOf
            (vmname ++ "." ++ uuidUnparseLower u))) := by
      simp [vm_delete, hres, hsl]
    obtain ⟨g1, g2, g3⟩ := c8_core σ (σ.removeSymlinkAt (root.childOf vmname)) real
      (((vdirOpt.getD root).childOf ".trash").childOf
        (vmname ++ "." ++ uuidUnparseLower u))
      ((vdirOpt.getD root).childOf ".trash") rfl rfl hnotunder
    rw [hcomp]
    exact ⟨rfl, g1, g2, g3, hdistinct⟩
  · have hcomp : vm_delete σ root vmname false u =
        ((σ.mkdirAll ((vdirOpt.getD root).childOf ".trash")).renameTree real
          (((vdirOpt.getD root).childOf ".trash").childOf
            (vmname ++ "." ++ uuidUnparseLower u)),
         .ok (((vdirOpt.getD root).childOf ".trash").childOf
            (vmname ++ "." ++ uuidUnparseLower u))) := by
      simp [vm_delete, hres, hsl]
    obtain ⟨g1, g2, g3⟩ := c8_core σ σ real
      (((vdirOpt.getD root).childOf ".trash").childOf
        (vmname ++ "." ++ uuidUnparseLower u))
      ((vdirOpt.getD root).childOf ".trash") rfl rfl hnotunder
    rw [hcomp]
    exact ⟨rfl, g1, g2, g3, hdistinct⟩

theorem c8_delete_moves_to_trash_witness :
    (vm_delete ⟨[["r"], ["r", "@v"], ["r", "@v", "m"]],
        [(["r", "@v", "m", "vm.ini"], "memory=1")],
        [(["r", "m"], .rel ["@v", "m"])], [(["r", "@v"], "/dev/sdb1", "ext4")], []⟩
      ["r"] "m" false [0, 1, 2, 3, 4, 5, 6, 7, 8, 9, 10, 11, 12, 13, 14, 255]).2 =
      .ok (Path.childOf (Path.childOf ((some ["r", "@v"]).getD ["r"]) ".trash")
        ("m" ++ "." ++ uuidUnparseLower [0, 1, 2, 3, 4, 5, 6, 7, 8, 9, 10, 11, 12, 13, 14, 255]))
    ∧ (Path.childOf (Path.childOf ((some ["r", "@v"]).getD ["r"]) ".trash")
        ("m" ++ "." ++ uuidUnparseLower [0, 1, 2, 3, 4, 5, 6, 7, 8, 9, 10, 11, 12, 13, 14, 255])
        ∈ (vm_delete ⟨[["r"], ["r", "@v"], ["r", "@v", "m"]],
            [(["r", "@v", "m", "vm.ini"], "memory=1")],
            [(["r", "m"], .rel ["@v", "m"])], [(["r", "@v"], "/dev/sdb1", "ext4")], []⟩
          ["r"] "m" false [0, 1, 2, 3, 4, 5, 6, 7, 8, 9, 10, 11, 12, 13, 14, 255]).1.dirs)
    ∧ (Path.childOf (Path.childOf ((some ["r", "@v"]).getD ["r"]) ".trash")
        ("m" ++ "." ++ uuidUnparseLower [0, 1, 2, 3, 4, 5, 6, 7, 8, 9, 10, 11, 12, 13, 14, 255])
        ≠ Path.childOf (Path.childOf ((some ["r", "@v"]).getD ["r"]) ".trash")
        ("m" ++ "." ++ uuidUnparseLower [7, 1, 2, 3, 4, 5, 6, 7, 8, 9, 10, 11, 12, 13, 14, 255])) :=
  ⟨(c8_delete_moves_to_trash ⟨[["r"], ["r", "@v"], ["r", "@v", "m"]],
      [(["r", "@v", "m", "vm.ini"], "memory=1")],
      [(["r", "m"], .rel ["@v", "m"])], [(["r", "@v"], "/dev/sdb1", "ext4")], []⟩
    ["r"] "m" ["r", "@v", "m"] (some ["r", "@v"])
    [0, 1, 2, 3, 4, 5, 6, 7, 8, 9, 10, 11, 12, 13, 14, 255]
    (by decide) (by decide)).1,
   (c8_delete_moves_to_trash ⟨[["r"], ["r", "@v"], ["r", "@v", "m"]],
      [(["r", "@v", "m", "vm.ini"], "memory=1")],
      [(["r", "m"], .rel ["@v", "m"])], [(["r", "@v"], "/dev/sdb1", "ext4")], []⟩
    ["r"] "m" ["r", "@v", "m"] (some ["r", "@v"])
    [0, 1, 2, 3, 4, 5, 6, 7, 8, 9, 10, 11, 12, 13, 14, 255]
    (by decide) (by decide)).2.1 (by decide),
   (c8_delete_moves_to_trash ⟨[["r"], ["r", "@v"], ["r", "@v", "m"]],
      [(["r", "@v", "m", "vm.ini"], "memory=1")],
      [(["r", "m"], .rel ["@v", "m"])], [(["r", "@v"], "/dev/sdb1", "ext4")], []⟩
    ["r"] "m" ["r", "@v", "m"] (some ["r", "@v"])
    [0, 1, 2, 3, 4, 5, 6, 7, 8, 9, 10, 11, 12, 13, 14, 255]
    (by decide) (by decide)).2.2.2.2
    [7, 1, 2, 3, 4, 5, 6, 7, 8, 9, 10, 11, 12, 13, 14, 255]
    (by decide) (by decide) (by decide) (by decide) (by decide)⟩

end Wb
